import Mathlib

/-!
Verification of the EXIF dashboard's metadata-aggregation engine and its
presentation shell (`web/app.py`).

The repository ships only the presentation shell; the aggregation engine
(`DataProcessor`) and the extractor are external collaborators described by the
specification.  The engine is therefore modelled here from the specification's
words; the shell's control flow is embedded from `web/app.py` directly.
-/

namespace ExifDashboard

/-- Photo orientation, derived at extraction time (spec section 3). -/
inductive Orientation where
  | portrait
  | landscape
deriving DecidableEq

/-- A capture date-time: calendar date plus hour of day (spec section 3,
`timestamp` field). -/
structure Timestamp where
  year : Int
  month : Int
  day : Int
  hour : Int
deriving DecidableEq

/-- One per-photo metadata record; every field is optionally present
(spec section 3: absence is not zero and must be excluded from aggregates). -/
structure MetadataRecord where
  filename : Option String := none
  camera_model : Option String := none
  lens_model : Option String := none
  iso : Option Nat := none
  aperture : Option ℚ := none
  focal_length : Option ℚ := none
  timestamp : Option Timestamp := none
  latitude : Option ℚ := none
  longitude : Option ℚ := none
  orientation : Option Orientation := none
  flash_fired : Option Bool := none
deriving DecidableEq

/-- Days elapsed since 1970-01-01 for a proleptic-Gregorian civil date
(standard days-from-civil computation, floor division throughout). -/
def daysFromCivil (y m d : Int) : Int :=
  let y2 := if m ≤ 2 then y - 1 else y
  let era := y2.fdiv 400
  let yoe := y2 - era * 400
  let mp := if m > 2 then m - 3 else m + 9
  let doy := (153 * mp + 2).fdiv 5 + d - 1
  let doe := yoe * 365 + yoe.fdiv 4 - yoe.fdiv 100 + doy
  era * 146097 + doe - 719468

/-- Epoch-day number of a timestamp's calendar date. -/
def Timestamp.epochDay (t : Timestamp) : Int :=
  daysFromCivil t.year t.month t.day

/-- Weekday index with Monday = 0 .. Sunday = 6 (1970-01-01 was a Thursday). -/
def Timestamp.weekdayIdx (t : Timestamp) : Int :=
  (t.epochDay + 3).emod 7

/-- Total order key on timestamps: hours since the epoch. -/
def Timestamp.sortKey (t : Timestamp) : Int :=
  t.epochDay * 24 + t.hour

/-- Timeline bucketing granularity (spec section 4.1: the enumerated set
day / week / month / year). -/
inductive Granularity where
  | day
  | week
  | month
  | year
deriving DecidableEq

/-- Modelled from the spec: the shell supplies the timeline frequency as one of
the strings D / W / M / Y (web/app.py line 83); any other value is invalid. -/
def parseGranularity (s : String) : Option Granularity :=
  if s = "D" then some .day
  else if s = "W" then some .week
  else if s = "M" then some .month
  else if s = "Y" then some .year
  else none

/-- Calendar-aligned bucket code of a timestamp at a granularity: equal codes
mean the same bucket, consecutive codes are adjacent buckets, and the code
order is chronological.  Weekly buckets start on Monday, monthly buckets on
the 1st (spec section 4.1). -/
def bucketCode (g : Granularity) (t : Timestamp) : Int :=
  match g with
  | .day => t.epochDay
  | .week => (t.epochDay + 3).fdiv 7
  | .month => t.year * 12 + (t.month - 1)
  | .year => t.year

/-- The aggregation engine: constructed once per analysis session with the
full immutable record collection (spec section 4.1). -/
structure DataProcessor where
  records : List MetadataRecord

/-- The configuration error raised for an invalid timeline granularity
(spec section 7). -/
inductive ConfigError where
  | invalidGranularity (freq : String)
deriving DecidableEq

/-- Distinct values of a list paired with their multiplicities. -/
def countTable {α : Type} [DecidableEq α] (vals : List α) : List (α × Nat) :=
  vals.dedup.map fun v => (v, vals.count v)

/-- Comparator: descending by count. -/
def descByCount {α : Type} (a b : α × Nat) : Bool :=
  b.2 ≤ a.2

/-- Comparator: ascending by key value. -/
def ascByKey {α : Type} [LinearOrder α] (a b : α × Nat) : Bool :=
  a.1 ≤ b.1

/-- Usage table: distinct value to count, sorted descending by count
(spec section 3, camera and lens usage). -/
def mkUsageTable {α : Type} [DecidableEq α] (vals : List α) : List (α × Nat) :=
  (countTable vals).mergeSort descByCount

/-- Distribution table: distinct value to count, sorted ascending by the
numeric value (spec section 3, ISO / aperture / focal length). -/
def mkDistTable {α : Type} [DecidableEq α] [LinearOrder α] (vals : List α) :
    List (α × Nat) :=
  (countTable vals).mergeSort ascByKey

/-- The camera-model values present in the collection. -/
def DataProcessor.cameraVals (p : DataProcessor) : List String :=
  p.records.filterMap (·.camera_model)

/-- The lens-model values present in the collection. -/
def DataProcessor.lensVals (p : DataProcessor) : List String :=
  p.records.filterMap (·.lens_model)

/-- The ISO values present in the collection. -/
def DataProcessor.isoVals (p : DataProcessor) : List Nat :=
  p.records.filterMap (·.iso)

/-- The aperture values present in the collection. -/
def DataProcessor.apertureVals (p : DataProcessor) : List ℚ :=
  p.records.filterMap (·.aperture)

/-- The focal-length values present in the collection. -/
def DataProcessor.focalVals (p : DataProcessor) : List ℚ :=
  p.records.filterMap (·.focal_length)

/-- The timestamps present in the collection. -/
def DataProcessor.timestamps (p : DataProcessor) : List Timestamp :=
  p.records.filterMap (·.timestamp)

/-- Modelled from the spec: camera usage accessor — distinct `camera_model`
to count, sorted descending by count; records without the field excluded
(spec section 3). -/
def DataProcessor.get_camera_usage (p : DataProcessor) : List (String × Nat) :=
  mkUsageTable p.cameraVals

/-- Modelled from the spec: lens usage accessor, same shape keyed by
`lens_model` (spec section 3). -/
def DataProcessor.get_lens_usage (p : DataProcessor) : List (String × Nat) :=
  mkUsageTable p.lensVals

/-- Modelled from the spec: ISO distribution, distinct value to count sorted
ascending by ISO value (spec section 3). -/
def DataProcessor.get_iso_distribution (p : DataProcessor) : List (Nat × Nat) :=
  mkDistTable p.isoVals

/-- Modelled from the spec: aperture distribution, ascending by f-number
(spec section 3). -/
def DataProcessor.get_aperture_distribution (p : DataProcessor) : List (ℚ × Nat) :=
  mkDistTable p.apertureVals

/-- Modelled from the spec: focal-length distribution, ascending by value
(spec section 3). -/
def DataProcessor.get_focal_length_distribution (p : DataProcessor) :
    List (ℚ × Nat) :=
  mkDistTable p.focalVals

/-- Modelled from the spec: shooting timeline — records bucketed by the
caller-supplied granularity, chronologically ordered, gaps between the first
and last observed bucket filled with zero-count buckets; an invalid
granularity raises a configuration error (spec sections 3, 4.1 and 7). -/
def DataProcessor.get_shooting_timeline (p : DataProcessor) (freq : String) :
    Except ConfigError (List (Int × Nat)) :=
  match parseGranularity freq with
  | none => .error (.invalidGranularity freq)
  | some g =>
    let codes := p.timestamps.map (bucketCode g)
    match codes.min?, codes.max? with
    | some lo, some hi =>
      .ok ((List.range ((hi - lo).toNat + 1)).map fun (i : Nat) =>
        (lo + (i : Int), codes.count (lo + (i : Int))))
    | _, _ => .ok []

/-- The fixed time-of-day categories with their hour ranges
(spec section 3: named ranges Night / Morning / Afternoon / Evening in a
fixed order regardless of which categories hold data). -/
def timeOfDayCategories : List (String × (Timestamp → Bool)) :=
  [("Night", fun t => decide (t.hour < 5 ∨ 21 ≤ t.hour)),
   ("Morning", fun t => decide (5 ≤ t.hour ∧ t.hour < 12)),
   ("Afternoon", fun t => decide (12 ≤ t.hour ∧ t.hour < 17)),
   ("Evening", fun t => decide (17 ≤ t.hour ∧ t.hour < 21))]

/-- The fixed day-of-week categories, Monday through Sunday (spec section 3). -/
def dayOfWeekCategories : List (String × (Timestamp → Bool)) :=
  [("Monday", fun t => t.weekdayIdx == 0),
   ("Tuesday", fun t => t.weekdayIdx == 1),
   ("Wednesday", fun t => t.weekdayIdx == 2),
   ("Thursday", fun t => t.weekdayIdx == 3),
   ("Friday", fun t => t.weekdayIdx == 4),
   ("Saturday", fun t => t.weekdayIdx == 5),
   ("Sunday", fun t => t.weekdayIdx == 6)]

/-- A fixed-category table: empty when no record supplies a timestamp
(spec section 3 invariant), otherwise every category in its fixed order with
the count of matching timestamps (zero-filled). -/
def categoryTable (cats : List (String × (Timestamp → Bool)))
    (ts : List Timestamp) : List (String × Nat) :=
  if ts.isEmpty then [] else cats.map fun c => (c.1, ts.countP c.2)

/-- Modelled from the spec: time-of-day distribution accessor
(spec section 3). -/
def DataProcessor.get_time_of_day_distribution (p : DataProcessor) :
    List (String × Nat) :=
  categoryTable timeOfDayCategories p.timestamps

/-- Modelled from the spec: day-of-week distribution accessor, Monday–Sunday
fixed order, zero-filled (spec section 3). -/
def DataProcessor.get_day_of_week_distribution (p : DataProcessor) :
    List (String × Nat) :=
  categoryTable dayOfWeekCategories p.timestamps

/-- One row of the GPS subset: filename plus coordinates (spec section 3). -/
structure GpsRow where
  filename : Option String
  latitude : ℚ
  longitude : ℚ
deriving DecidableEq

/-- The GPS row of a record, when both coordinates are present. -/
def recordGpsRow (r : MetadataRecord) : Option GpsRow :=
  match r.latitude, r.longitude with
  | some la, some lo => some ⟨r.filename, la, lo⟩
  | _, _ => none

/-- Modelled from the spec: GPS subset accessor — rows limited to records with
both latitude and longitude present (spec section 3). -/
def DataProcessor.get_gps_photos (p : DataProcessor) : List GpsRow :=
  p.records.filterMap recordGpsRow

/-- Modelled from the spec: orientation counts, records missing the field
excluded; empty when no record supplies it (spec section 3). -/
def DataProcessor.get_orientation_stats (p : DataProcessor) :
    List (String × Nat) :=
  let vals := p.records.filterMap (·.orientation)
  if vals.isEmpty then []
  else [("portrait", vals.count .portrait), ("landscape", vals.count .landscape)]

/-- Modelled from the spec: flash usage counts; empty when no record supplies
the field (spec section 3). -/
def DataProcessor.get_flash_usage_stats (p : DataProcessor) :
    List (String × Nat) :=
  let vals := p.records.filterMap (·.flash_fired)
  if vals.isEmpty then []
  else [("used", vals.count true), ("not_used", vals.count false)]

/-- Date-range section of the summary (spec section 3). -/
structure DateRange where
  earliest : Timestamp
  latest : Timestamp
  span_days : Int
deriving DecidableEq

/-- Numeric ISO statistics section of the summary (spec section 3). -/
structure IsoStats where
  min : Nat
  max : Nat
  mean : ℚ
deriving DecidableEq

/-- Numeric aperture statistics section of the summary, including the mode
(spec sections 3 and 4.1). -/
structure ApertureStats where
  min : ℚ
  max : ℚ
  mean : ℚ
  most_common : ℚ
deriving DecidableEq

/-- Mean of a list of rationals. -/
def listMean (l : List ℚ) : ℚ :=
  l.sum / (l.length : ℚ)

/-- Modelled from the spec: the most common value of a list, ties broken by
smallest value (spec section 4.1) — the first maximal-count entry of the
ascending-sorted distribution table. -/
def mostCommonOf (vals : List ℚ) (dflt : ℚ) : ℚ :=
  match mkDistTable vals with
  | [] => dflt
  | r :: rs => (rs.foldl (fun b x => if b.2 < x.2 then x else b) r).1

/-- Summary report: sections that depend on optional fields are themselves
optional, so their absence is distinguishable from a zero value
(spec sections 3 and 4.1). -/
structure SummaryReport where
  total_photos : Nat
  unique_cameras : Nat
  unique_lenses : Nat
  photos_with_gps : Nat
  date_range : Option DateRange
  iso_stats : Option IsoStats
  aperture_stats : Option ApertureStats

/-- Modelled from the spec: the summary-report accessor — total photo count,
distinct-camera and distinct-lens counts, GPS-tagged count, date span when any
timestamp is present, and numeric stats for ISO and aperture when present
(spec section 3). -/
def DataProcessor.get_summary_report (p : DataProcessor) : SummaryReport :=
  { total_photos := p.records.length
    unique_cameras := p.cameraVals.dedup.length
    unique_lenses := p.lensVals.dedup.length
    photos_with_gps :=
      (p.records.filter fun r => r.latitude.isSome && r.longitude.isSome).length
    date_range :=
      match p.timestamps with
      | [] => none
      | t :: ts =>
        let e := ts.foldl (fun b u => if u.sortKey < b.sortKey then u else b) t
        let l := ts.foldl (fun b u => if b.sortKey < u.sortKey then u else b) t
        some ⟨e, l, l.epochDay - e.epochDay⟩
    iso_stats :=
      match p.isoVals with
      | [] => none
      | v :: vs =>
        some ⟨vs.foldl min v, vs.foldl max v,
              listMean ((v :: vs).map fun n => (n : ℚ))⟩
    aperture_stats :=
      match p.apertureVals with
      | [] => none
      | v :: vs =>
        some ⟨vs.foldl min v, vs.foldl max v, listMean (v :: vs),
              mostCommonOf p.apertureVals v⟩ }

/-! The presentation shell, embedded from `web/app.py`. -/

/-- Everything the dashboard page computes from the record collection
(`display_dashboard`, web/app.py lines 188-469): the engine is constructed
from the scanned records and each accessor is called once. -/
structure Dashboard where
  processor : DataProcessor
  summary : SummaryReport
  camera_df : List (String × Nat)
  lens_df : List (String × Nat)
  iso_df : List (Nat × Nat)
  aperture_df : List (ℚ × Nat)
  fl_df : List (ℚ × Nat)
  timeline_df : Except ConfigError (List (Int × Nat))
  tod_df : List (String × Nat)
  dow_df : List (String × Nat)
  gps_df : Option (List GpsRow)
  orientation_stats : List (String × Nat)
  flash_stats : List (String × Nat)

/-- `display_dashboard(photos_data, show_gps, timeline_freq)`
(web/app.py line 188): constructs the engine on the scanned records and
queries every table; the GPS table only when the map is enabled. -/
def display_dashboard (photos_data : List MetadataRecord) (show_gps : Bool)
    (timeline_freq : String) : Dashboard :=
  let processor : DataProcessor := ⟨photos_data⟩
  { processor := processor
    summary := processor.get_summary_report
    camera_df := processor.get_camera_usage
    lens_df := processor.get_lens_usage
    iso_df := processor.get_iso_distribution
    aperture_df := processor.get_aperture_distribution
    fl_df := processor.get_focal_length_distribution
    timeline_df := processor.get_shooting_timeline timeline_freq
    tod_df := processor.get_time_of_day_distribution
    dow_df := processor.get_day_of_week_distribution
    gps_df := if show_gps then some processor.get_gps_photos else none
    orientation_stats := processor.get_orientation_stats
    flash_stats := processor.get_flash_usage_stats }

/-- Outcome of an upload handler: either an error message shown to the user,
or a rendered dashboard. -/
inductive ShellOutcome where
  | errorMessage (msg : String)
  | dashboard (d : Dashboard)

/-- `process_zip_upload` after the extractor's scan (web/app.py lines
152-160): an empty scan result reports an error and returns; otherwise the
dashboard is displayed. -/
def process_zip_upload (photos_data : List MetadataRecord) (show_gps : Bool)
    (timeline_freq : String) : ShellOutcome :=
  if photos_data.isEmpty then
    .errorMessage "No valid photos with EXIF data found in the ZIP file."
  else
    .dashboard (display_dashboard photos_data show_gps timeline_freq)

/-- `process_individual_uploads` after the extractor's scan (web/app.py lines
177-185): same gate with a different message. -/
def process_individual_uploads (photos_data : List MetadataRecord)
    (show_gps : Bool) (timeline_freq : String) : ShellOutcome :=
  if photos_data.isEmpty then
    .errorMessage "No valid photos with EXIF data found."
  else
    .dashboard (display_dashboard photos_data show_gps timeline_freq)

/-- Correctness predicate for a usage table over the present values of a
field: no key twice, rows sorted descending by count, counts summing to the
number of present values, and exactly the distinct present values as keys. -/
def usageTableOK {α : Type} [DecidableEq α] (vals : List α)
    (tbl : List (α × Nat)) : Prop :=
  (tbl.map Prod.fst).Nodup ∧
  tbl.Pairwise (fun a b => b.2 ≤ a.2) ∧
  (tbl.map Prod.snd).sum = vals.length ∧
  ∀ v, v ∈ tbl.map Prod.fst ↔ v ∈ vals

/-- Correctness predicate for a numeric distribution table: strictly
ascending by key value, keys exactly the distinct present values, and each
bucket's count the exact multiplicity of its value. -/
def distTableOK {α : Type} [DecidableEq α] [LinearOrder α] (vals : List α)
    (tbl : List (α × Nat)) : Prop :=
  tbl.Pairwise (fun a b => a.1 < b.1) ∧
  (∀ v, v ∈ tbl.map Prod.fst ↔ v ∈ vals) ∧
  ∀ r ∈ tbl, r.2 = vals.count r.1

/-- A record collection with no field populated anywhere. -/
def blankRecord : MetadataRecord := {}

/-- A two-record all-blank collection, used to instantiate general theorems. -/
def procBlank : DataProcessor := ⟨[blankRecord, blankRecord]⟩

/-- A record stamped 2024-01-01, 12:00 (a Monday afternoon). -/
def recJan1 : MetadataRecord := { timestamp := some ⟨2024, 1, 1, 12⟩ }

/-- A record stamped 2024-01-03, 09:00 (a Wednesday morning). -/
def recJan3 : MetadataRecord := { timestamp := some ⟨2024, 1, 3, 9⟩ }

/-- A collection with two timestamped records two days apart. -/
def procTimeline : DataProcessor := ⟨[recJan1, recJan3]⟩

/-- A collection whose aperture values are 4, 2, 4, 2: two values tied for
the highest frequency. -/
def procAperture : DataProcessor :=
  ⟨[{ aperture := some 4 }, { aperture := some 2 },
    { aperture := some 4 }, { aperture := some 2 }]⟩

/-! Helper lemmas. -/

theorem sum_map_count_dedup {α : Type} [DecidableEq α] (l : List α) :
    ((l.dedup.map fun v => l.count v).sum) = l.length := by
  have h := Multiset.toFinset_sum_count_eq (l : Multiset α)
  simpa [Finset.sum, List.toFinset, Multiset.toFinset] using h

theorem length_filterMap_eq_countP {α β : Type} (f : α → Option β) (l : List α) :
    (l.filterMap f).length = l.countP (fun a => (f a).isSome) := by
  induction l with
  | nil => rfl
  | cons a t ih => cases h : f a <;> simp [List.filterMap_cons, h, List.countP_cons, ih]

theorem countTable_map_fst {α : Type} [DecidableEq α] (vals : List α) :
    (countTable vals).map Prod.fst = vals.dedup := by
  simp [countTable, List.map_map, Function.comp_def]

theorem countTable_snd {α : Type} [DecidableEq α] (vals : List α) :
    ∀ r ∈ countTable vals, r.2 = vals.count r.1 := by
  intro r hr
  simp only [countTable, List.mem_map] at hr
  obtain ⟨v, _, rfl⟩ := hr
  rfl

theorem mkUsageTable_ok {α : Type} [DecidableEq α] (vals : List α) :
    usageTableOK vals (mkUsageTable vals) := by
  have hperm : List.Perm (mkUsageTable vals) (countTable vals) :=
    List.mergeSort_perm (countTable vals) descByCount
  have hfst : List.Perm ((mkUsageTable vals).map Prod.fst) vals.dedup := by
    simpa [countTable_map_fst] using hperm.map Prod.fst
  refine ⟨?_, ?_, ?_, ?_⟩
  · exact hfst.nodup_iff.mpr (List.nodup_dedup vals)
  · have htrans : ∀ a b c : α × Nat,
        descByCount a b → descByCount b c → descByCount a c := fun a b c hab hbc => by
      simp only [descByCount, decide_eq_true_eq] at hab hbc ⊢; omega
    have htotal : ∀ a b : α × Nat, descByCount a b || descByCount b a := fun a b => by
      simp only [descByCount]
      rcases Nat.le_total b.2 a.2 with h | h <;> simp [h]
    have hs := List.sorted_mergeSort htrans htotal (countTable vals)
    exact hs.imp fun h => by simpa [descByCount] using h
  · have hsum := (hperm.map Prod.snd).sum_eq
    rw [hsum]
    simpa [countTable, List.map_map] using sum_map_count_dedup vals
  · intro v
    rw [hfst.mem_iff, List.mem_dedup]

theorem mkDistTable_ok {α : Type} [DecidableEq α] [LinearOrder α] (vals : List α) :
    distTableOK vals (mkDistTable vals) := by
  have hperm : List.Perm (mkDistTable vals) (countTable vals) :=
    List.mergeSort_perm (countTable vals) ascByKey
  have hfst : List.Perm ((mkDistTable vals).map Prod.fst) vals.dedup := by
    simpa [countTable_map_fst] using hperm.map Prod.fst
  have hnd : ((mkDistTable vals).map Prod.fst).Nodup :=
    hfst.nodup_iff.mpr (List.nodup_dedup vals)
  refine ⟨?_, ?_, ?_⟩
  · have hle : (mkDistTable vals).Pairwise (fun a b => a.1 ≤ b.1) := by
      have htrans : ∀ a b c : α × Nat,
          ascByKey a b → ascByKey b c → ascByKey a c := fun a b c hab hbc => by
        simp only [ascByKey, decide_eq_true_eq] at hab hbc ⊢
        exact le_trans hab hbc
      have htotal : ∀ a b : α × Nat, ascByKey a b || ascByKey b a := fun a b => by
        simp only [ascByKey]
        rcases le_total a.1 b.1 with h | h <;> simp [h]
      have hs := List.sorted_mergeSort htrans htotal (countTable vals)
      exact hs.imp fun h => by simpa [ascByKey] using h
    have hne : (mkDistTable vals).Pairwise (fun a b => a.1 ≠ b.1) :=
      List.pairwise_map.mp hnd
    exact (hle.and hne).imp fun h => lt_of_le_of_ne h.1 h.2
  · intro v
    rw [hfst.mem_iff, List.mem_dedup]
  · intro r hr
    exact countTable_snd vals r (hperm.mem_iff.mp hr)

/-! Claim theorems. -/

/-- C1: for every non-empty record collection, `total_photos` in the summary
report equals the length of the input collection, regardless of which fields
are populated. -/
theorem summary_total_photos (p : DataProcessor) (h : p.records ≠ []) :
    (p.get_summary_report).total_photos = p.records.length := rfl

theorem summary_total_photos_witness :
    procBlank.records ≠ [] ∧
    (procBlank.get_summary_report).total_photos = procBlank.records.length :=
  ⟨by decide, summary_total_photos procBlank (by decide)⟩

theorem timeline_ok_of_parse (p : DataProcessor) (freq : String)
    (g : Granularity) (hp : parseGranularity freq = some g) :
    ∃ tbl, p.get_shooting_timeline freq = .ok tbl := by
  simp only [DataProcessor.get_shooting_timeline, hp]
  split
  · exact ⟨_, rfl⟩
  · exact ⟨[], rfl⟩

/-- C2: the timeline accessor returns a table for every granularity in the
enumerated set and raises a configuration error, returning no table, for
every granularity outside it. -/
theorem timeline_granularity_gate (p : DataProcessor) (freq : String) :
    (freq ∈ (["D", "W", "M", "Y"] : List String) →
      ∃ tbl, p.get_shooting_timeline freq = .ok tbl) ∧
    (freq ∉ (["D", "W", "M", "Y"] : List String) →
      p.get_shooting_timeline freq = .error (.invalidGranularity freq)) := by
  constructor
  · intro hm
    simp only [List.mem_cons, List.mem_singleton, List.not_mem_nil, or_false] at hm
    rcases hm with rfl | rfl | rfl | rfl
    · exact timeline_ok_of_parse p "D" .day (by decide)
    · exact timeline_ok_of_parse p "W" .week (by decide)
    · exact timeline_ok_of_parse p "M" .month (by decide)
    · exact timeline_ok_of_parse p "Y" .year (by decide)
  · intro hm
    simp only [List.mem_cons, List.mem_singleton, List.not_mem_nil, or_false,
      not_or] at hm
    obtain ⟨h1, h2, h3, h4⟩ := hm
    simp [DataProcessor.get_shooting_timeline, parseGranularity, h1, h2, h3, h4]

theorem timeline_granularity_gate_witness :
    (∃ tbl, procBlank.get_shooting_timeline "M" = .ok tbl) ∧
    procBlank.get_shooting_timeline "hourly" =
      .error (.invalidGranularity "hourly") :=
  ⟨(timeline_granularity_gate procBlank "M").1 (by decide),
   (timeline_granularity_gate procBlank "hourly").2 (by decide)⟩

/-- C4: the camera and lens usage tables each have one row per distinct value
of their field with no key twice, rows sorted descending by count, and counts
summing to the number of records in which the field is present. -/
theorem usage_tables_spec (p : DataProcessor) :
    usageTableOK p.cameraVals p.get_camera_usage ∧
    usageTableOK p.lensVals p.get_lens_usage ∧
    p.cameraVals.length = p.records.countP (fun r => (r.camera_model).isSome) ∧
    p.lensVals.length = p.records.countP (fun r => (r.lens_model).isSome) :=
  ⟨mkUsageTable_ok _, mkUsageTable_ok _,
   length_filterMap_eq_countP _ _, length_filterMap_eq_countP _ _⟩

/-- C5: the ISO, aperture, and focal-length distributions are each sorted
ascending by numeric key value, with one bucket per distinct present value
and exact (unbinned, unrounded) counts. -/
theorem distribution_tables_spec (p : DataProcessor) :
    distTableOK p.isoVals p.get_iso_distribution ∧
    distTableOK p.apertureVals p.get_aperture_distribution ∧
    distTableOK p.focalVals p.get_focal_length_distribution :=
  ⟨mkDistTable_ok _, mkDistTable_ok _, mkDistTable_ok _⟩

/-- C3: with at least two timestamped records and a valid granularity, the
timeline is chronologically ordered and every calendar-aligned bucket strictly
between the first and last observed bucket that holds no photos appears with
count 0. -/
theorem timeline_gap_fill (p : DataProcessor) (freq : String) (g : Granularity)
    (hp : parseGranularity freq = some g)
    (h2 : 2 ≤ p.timestamps.length)
    (lo hi : Int)
    (hlo : (p.timestamps.map (bucketCode g)).min? = some lo)
    (hhi : (p.timestamps.map (bucketCode g)).max? = some hi) :
    ∃ tbl, p.get_shooting_timeline freq = .ok tbl ∧
      tbl.Pairwise (fun a b => a.1 < b.1) ∧
      ∀ c : Int, lo < c → c < hi →
        (p.timestamps.map (bucketCode g)).count c = 0 → (c, 0) ∈ tbl := by
  refine ⟨(List.range ((hi - lo).toNat + 1)).map fun (i : Nat) =>
      (lo + (i : Int), (p.timestamps.map (bucketCode g)).count (lo + (i : Int))),
    ?_, ?_, ?_⟩
  · simp only [DataProcessor.get_shooting_timeline, hp, hlo, hhi]
  · refine List.pairwise_map.mpr ((List.pairwise_lt_range _).imp ?_)
    intro i j hij
    simpa using (by exact_mod_cast hij : (i : Int) < (j : Int))
  · intro c hc1 hc2 hcount
    refine List.mem_map.mpr ⟨(c - lo).toNat, List.mem_range.mpr (by omega), ?_⟩
    have he : lo + ((c - lo).toNat : Int) = c := by omega
    rw [he, hcount]

theorem timeline_gap_fill_witness :
    ∃ tbl, procTimeline.get_shooting_timeline "D" = .ok tbl ∧
      tbl.Pairwise (fun a b => a.1 < b.1) ∧
      ∀ c : Int, 19723 < c → c < 19725 →
        (procTimeline.timestamps.map (bucketCode .day)).count c = 0 →
          (c, 0) ∈ tbl :=
  timeline_gap_fill procTimeline "D" .day (by decide) (by decide)
    19723 19725 (by decide) (by decide)

theorem categoryTable_of_ne_nil (cats : List (String × (Timestamp → Bool)))
    (ts : List Timestamp) (h : ts ≠ []) :
    categoryTable cats ts = cats.map fun c => (c.1, ts.countP c.2) := by
  rw [categoryTable, if_neg]
  simp [List.isEmpty_iff, h]

theorem categoryTable_zero_mem (cats : List (String × (Timestamp → Bool)))
    (ts : List Timestamp) (h : ts ≠ [])
    (c : String × (Timestamp → Bool)) (hc : c ∈ cats)
    (hz : ∀ t ∈ ts, c.2 t = false) :
    (c.1, 0) ∈ categoryTable cats ts := by
  rw [categoryTable_of_ne_nil cats ts h]
  refine List.mem_map.mpr ⟨c, hc, ?_⟩
  have : ts.countP c.2 = 0 := by
    rw [List.countP_eq_zero]
    intro t ht
    simpa using hz t ht
  rw [this]

/-- C6: with at least one timestamped record, the day-of-week table contains
all seven categories in fixed Monday-to-Sunday order and the time-of-day
table all of its fixed named categories in fixed order, each category a
record falls into never dropped and each uncovered category present with
count 0. -/
theorem fixed_category_tables (p : DataProcessor) (h : p.timestamps ≠ []) :
    (p.get_day_of_week_distribution).map Prod.fst =
      ["Monday", "Tuesday", "Wednesday", "Thursday", "Friday", "Saturday",
       "Sunday"] ∧
    (p.get_time_of_day_distribution).map Prod.fst =
      ["Night", "Morning", "Afternoon", "Evening"] ∧
    (∀ c ∈ dayOfWeekCategories, (∀ t ∈ p.timestamps, c.2 t = false) →
      (c.1, 0) ∈ p.get_day_of_week_distribution) ∧
    (∀ c ∈ timeOfDayCategories, (∀ t ∈ p.timestamps, c.2 t = false) →
      (c.1, 0) ∈ p.get_time_of_day_distribution) := by
  refine ⟨?_, ?_, ?_, ?_⟩
  · rw [DataProcessor.get_day_of_week_distribution,
      categoryTable_of_ne_nil _ _ h]
    rfl
  · rw [DataProcessor.get_time_of_day_distribution,
      categoryTable_of_ne_nil _ _ h]
    rfl
  · intro c hc hz
    exact categoryTable_zero_mem _ _ h c hc hz
  · intro c hc hz
    exact categoryTable_zero_mem _ _ h c hc hz

theorem fixed_category_tables_witness :
    procTimeline.timestamps ≠ [] ∧
    ((procTimeline.get_day_of_week_distribution).map Prod.fst =
      ["Monday", "Tuesday", "Wednesday", "Thursday", "Friday", "Saturday",
       "Sunday"] ∧
    (procTimeline.get_time_of_day_distribution).map Prod.fst =
      ["Night", "Morning", "Afternoon", "Evening"] ∧
    (∀ c ∈ dayOfWeekCategories, (∀ t ∈ procTimeline.timestamps, c.2 t = false) →
      (c.1, 0) ∈ procTimeline.get_day_of_week_distribution) ∧
    (∀ c ∈ timeOfDayCategories, (∀ t ∈ procTimeline.timestamps, c.2 t = false) →
      (c.1, 0) ∈ procTimeline.get_time_of_day_distribution)) :=
  ⟨by decide, fixed_category_tables procTimeline (by decide)⟩

theorem recordGpsRow_eq_some (r : MetadataRecord) (row : GpsRow) :
    recordGpsRow r = some row ↔
      r.filename = row.filename ∧ r.latitude = some row.latitude ∧
        r.longitude = some row.longitude := by
  obtain ⟨fn, la, lo⟩ := row
  cases hla : r.latitude <;> cases hlo : r.longitude <;>
    simp [recordGpsRow, hla, hlo]

theorem length_filterMap_recordGpsRow (l : List MetadataRecord) :
    (l.filterMap recordGpsRow).length =
      (l.filter fun r => r.latitude.isSome && r.longitude.isSome).length := by
  induction l with
  | nil => rfl
  | cons r t ih =>
    cases hla : r.latitude <;> cases hlo : r.longitude <;>
      simp [recordGpsRow, hla, hlo, List.filterMap_cons, List.filter_cons, ih]

/-- C7: the GPS subset contains exactly the records in which both latitude
and longitude are present, its size equals the count of such records, and
each row carries the record's filename, latitude, and longitude. -/
theorem gps_subset_spec (p : DataProcessor) :
    p.get_gps_photos.length =
      (p.records.filter fun r => r.latitude.isSome && r.longitude.isSome).length ∧
    ∀ row : GpsRow, row ∈ p.get_gps_photos ↔
      ∃ r ∈ p.records, r.filename = row.filename ∧
        r.latitude = some row.latitude ∧ r.longitude = some row.longitude := by
  constructor
  · exact length_filterMap_recordGpsRow p.records
  · intro row
    rw [DataProcessor.get_gps_photos, List.mem_filterMap]
    constructor
    · rintro ⟨r, hr, hrow⟩
      exact ⟨r, hr, (recordGpsRow_eq_some r row).mp hrow⟩
    · rintro ⟨r, hr, hprops⟩
      exact ⟨r, hr, (recordGpsRow_eq_some r row).mpr hprops⟩


theorem mkUsageTable_nil {α : Type} [DecidableEq α] : mkUsageTable ([] : List α) = [] := by
  simp [mkUsageTable, countTable]

theorem mkDistTable_nil {α : Type} [DecidableEq α] [LinearOrder α] :
    mkDistTable ([] : List α) = [] := by
  simp [mkDistTable, countTable]

/-- C8: the empty collection and every all-absent collection yield empty
tables from every accessor rather than an error; on empty input the summary
has `total_photos = 0` and omits the date-range and numeric-stats sections
(`none`, distinguishable from a zero or empty value). -/
theorem empty_and_absent_behavior (p : DataProcessor) :
    ((∀ r ∈ p.records, r.camera_model = none) → p.get_camera_usage = []) ∧
    ((∀ r ∈ p.records, r.lens_model = none) → p.get_lens_usage = []) ∧
    ((∀ r ∈ p.records, r.iso = none) → p.get_iso_distribution = []) ∧
    ((∀ r ∈ p.records, r.aperture = none) → p.get_aperture_distribution = []) ∧
    ((∀ r ∈ p.records, r.focal_length = none) →
      p.get_focal_length_distribution = []) ∧
    ((∀ r ∈ p.records, r.timestamp = none) →
      (∀ freq g, parseGranularity freq = some g →
        p.get_shooting_timeline freq = .ok []) ∧
      p.get_time_of_day_distribution = [] ∧
      p.get_day_of_week_distribution = []) ∧
    ((∀ r ∈ p.records, r.latitude = none ∨ r.longitude = none) →
      p.get_gps_photos = []) ∧
    ((∀ r ∈ p.records, r.orientation = none) → p.get_orientation_stats = []) ∧
    ((∀ r ∈ p.records, r.flash_fired = none) → p.get_flash_usage_stats = []) ∧
    (p.records = [] →
      p.get_summary_report.total_photos = 0 ∧
      p.get_summary_report.date_range = none ∧
      p.get_summary_report.iso_stats = none ∧
      p.get_summary_report.aperture_stats = none) := by
  obtain ⟨rs⟩ := p
  refine ⟨?_, ?_, ?_, ?_, ?_, ?_, ?_, ?_, ?_, ?_⟩
  · intro habs
    have hv : DataProcessor.cameraVals ⟨rs⟩ = [] := List.filterMap_eq_nil_iff.mpr habs
    rw [DataProcessor.get_camera_usage, hv, mkUsageTable_nil]
  · intro habs
    have hv : DataProcessor.lensVals ⟨rs⟩ = [] := List.filterMap_eq_nil_iff.mpr habs
    rw [DataProcessor.get_lens_usage, hv, mkUsageTable_nil]
  · intro habs
    have hv : DataProcessor.isoVals ⟨rs⟩ = [] := List.filterMap_eq_nil_iff.mpr habs
    rw [DataProcessor.get_iso_distribution, hv, mkDistTable_nil]
  · intro habs
    have hv : DataProcessor.apertureVals ⟨rs⟩ = [] := List.filterMap_eq_nil_iff.mpr habs
    rw [DataProcessor.get_aperture_distribution, hv, mkDistTable_nil]
  · intro habs
    have hv : DataProcessor.focalVals ⟨rs⟩ = [] := List.filterMap_eq_nil_iff.mpr habs
    rw [DataProcessor.get_focal_length_distribution, hv, mkDistTable_nil]
  · intro habs
    have hv : DataProcessor.timestamps ⟨rs⟩ = [] := List.filterMap_eq_nil_iff.mpr habs
    refine ⟨?_, ?_, ?_⟩
    · intro freq g hg
      simp [DataProcessor.get_shooting_timeline, hg, hv]
    · simp [DataProcessor.get_time_of_day_distribution, categoryTable, hv]
    · simp [DataProcessor.get_day_of_week_distribution, categoryTable, hv]
  · intro habs
    rw [DataProcessor.get_gps_photos, List.filterMap_eq_nil_iff]
    intro r hr
    rcases habs r hr with h1 | h1
    · simp [recordGpsRow, h1]
    · cases hla : r.latitude <;> simp [recordGpsRow, hla, h1]
  · intro habs
    have hv : rs.filterMap (·.orientation) = [] := List.filterMap_eq_nil_iff.mpr habs
    simp [DataProcessor.get_orientation_stats, hv]
  · intro habs
    have hv : rs.filterMap (·.flash_fired) = [] := List.filterMap_eq_nil_iff.mpr habs
    simp [DataProcessor.get_flash_usage_stats, hv]
  · rintro rfl
    refine ⟨rfl, rfl, rfl, rfl⟩

theorem empty_and_absent_behavior_witness :
    (DataProcessor.mk []).get_camera_usage = [] ∧
    (DataProcessor.mk []).get_gps_photos = [] ∧
    (DataProcessor.mk []).get_shooting_timeline "D" = .ok [] ∧
    (DataProcessor.mk []).get_summary_report.total_photos = 0 ∧
    (DataProcessor.mk []).get_summary_report.date_range = none ∧
    (DataProcessor.mk []).get_summary_report.iso_stats = none ∧
    (DataProcessor.mk []).get_summary_report.aperture_stats = none := by
  refine ⟨(empty_and_absent_behavior ⟨[]⟩).1 (by simp),
    (empty_and_absent_behavior ⟨[]⟩).2.2.2.2.2.2.1 (by simp),
    ((empty_and_absent_behavior ⟨[]⟩).2.2.2.2.2.1 (by simp)).1 "D" .day (by decide),
    ?_, ?_, ?_, ?_⟩
  · exact ((empty_and_absent_behavior ⟨[]⟩).2.2.2.2.2.2.2.2.2 rfl).1
  · exact ((empty_and_absent_behavior ⟨[]⟩).2.2.2.2.2.2.2.2.2 rfl).2.1
  · exact ((empty_and_absent_behavior ⟨[]⟩).2.2.2.2.2.2.2.2.2 rfl).2.2.1
  · exact ((empty_and_absent_behavior ⟨[]⟩).2.2.2.2.2.2.2.2.2 rfl).2.2.2


theorem foldl_argmax {α : Type} [LinearOrder α] (l : List (α × Nat)) :
    ∀ b : α × Nat, (b :: l).Pairwise (fun x y => x.1 < y.1) →
      (l.foldl (fun c x => if c.2 < x.2 then x else c) b) ∈ b :: l ∧
      (∀ x ∈ b :: l,
        x.2 ≤ (l.foldl (fun c x => if c.2 < x.2 then x else c) b).2) ∧
      (∀ x ∈ b :: l,
        x.2 = (l.foldl (fun c x => if c.2 < x.2 then x else c) b).2 →
          (l.foldl (fun c x => if c.2 < x.2 then x else c) b).1 ≤ x.1) := by
  induction l with
  | nil =>
    intro b _
    simp
  | cons a t ih =>
    intro b hp
    rw [List.pairwise_cons] at hp
    obtain ⟨hbrest, hp2⟩ := hp
    rw [List.pairwise_cons] at hp2
    obtain ⟨harest, hpt⟩ := hp2
    have hstep : ((if b.2 < a.2 then a else b) :: t).Pairwise
        (fun x y => x.1 < y.1) := by
      rw [List.pairwise_cons]
      refine ⟨?_, hpt⟩
      intro x hx
      split
      · exact harest x hx
      · exact hbrest x (List.mem_cons_of_mem a hx)
    obtain ⟨hmem, hmax, htie⟩ := ih (if b.2 < a.2 then a else b) hstep
    have hfold : (a :: t).foldl (fun c x => if c.2 < x.2 then x else c) b =
        t.foldl (fun c x => if c.2 < x.2 then x else c)
          (if b.2 < a.2 then a else b) := rfl
    rw [hfold]
    set res := t.foldl (fun c x => if c.2 < x.2 then x else c)
      (if b.2 < a.2 then a else b) with hres
    have hstep_le : (if b.2 < a.2 then a else b).2 ≤ res.2 :=
      hmax _ (List.mem_cons_self _ _)
    refine ⟨?_, ?_, ?_⟩
    · rcases List.mem_cons.mp hmem with h | h
      · by_cases hba : b.2 < a.2
        · rw [if_pos hba] at h
          rw [h]
          exact List.mem_cons_of_mem b (List.mem_cons_self a t)
        · rw [if_neg hba] at h
          rw [h]
          exact List.mem_cons_self b (a :: t)
      · exact List.mem_cons_of_mem b (List.mem_cons_of_mem a h)
    · intro x hx
      rcases List.mem_cons.mp hx with rfl | hx2
      · by_cases hba : x.2 < a.2
        · rw [if_pos hba] at hstep_le
          omega
        · rw [if_neg hba] at hstep_le
          exact hstep_le
      · rcases List.mem_cons.mp hx2 with rfl | hx3
        · by_cases hba : b.2 < x.2
          · rw [if_pos hba] at hstep_le
            exact hstep_le
          · rw [if_neg hba] at hstep_le
            omega
        · exact hmax x (List.mem_cons_of_mem _ hx3)
    · intro x hx hxe
      rcases List.mem_cons.mp hx with rfl | hx2
      · by_cases hba : x.2 < a.2
        · rw [if_pos hba] at hstep_le
          omega
        · rw [if_neg hba] at htie
          exact htie x (List.mem_cons_self _ _) hxe
      · rcases List.mem_cons.mp hx2 with rfl | hx3
        · by_cases hba : b.2 < x.2
          · rw [if_pos hba] at htie
            exact htie x (List.mem_cons_self _ _) hxe
          · rw [if_neg hba] at hstep_le htie
            have hbe : b.2 = res.2 := by omega
            have h1 : res.1 ≤ b.1 := htie b (List.mem_cons_self _ _) hbe
            have h2 : b.1 < x.1 := hbrest x (List.mem_cons_self _ _)
            exact le_of_lt (lt_of_le_of_lt h1 h2)
        · exact htie x (List.mem_cons_of_mem _ hx3) hxe

theorem mostCommonOf_spec (vals : List ℚ) (dflt : ℚ) (h : vals ≠ []) :
    mostCommonOf vals dflt ∈ vals ∧
    (∀ v ∈ vals, vals.count v ≤ vals.count (mostCommonOf vals dflt)) ∧
    (∀ v ∈ vals, vals.count v = vals.count (mostCommonOf vals dflt) →
      mostCommonOf vals dflt ≤ v) := by
  obtain ⟨hpw, hmem, hsnd⟩ := mkDistTable_ok vals
  cases htbl : mkDistTable vals with
  | nil =>
    exfalso
    obtain ⟨v, hv⟩ := List.exists_mem_of_ne_nil vals h
    have := (hmem v).mpr hv
    rw [htbl] at this
    simp at this
  | cons r rs =>
    rw [htbl] at hpw hsnd
    have hmc : mostCommonOf vals dflt =
        (rs.foldl (fun c x => if c.2 < x.2 then x else c) r).1 := by
      rw [mostCommonOf, htbl]
    obtain ⟨hm, hmax, htie⟩ := foldl_argmax rs r hpw
    set res := rs.foldl (fun c x => if c.2 < x.2 then x else c) r with hres
    have hres_mem_vals : res.1 ∈ vals := by
      have : res.1 ∈ (r :: rs).map Prod.fst := List.mem_map_of_mem Prod.fst hm
      rw [← htbl] at this
      exact (hmem res.1).mp this
    have hres_cnt : res.2 = vals.count res.1 := hsnd res hm
    refine ⟨hmc ▸ hres_mem_vals, ?_, ?_⟩
    · intro v hv
      have hvfst : v ∈ (r :: rs).map Prod.fst := by
        rw [← htbl]
        exact (hmem v).mpr hv
      obtain ⟨row, hrow, hrowv⟩ := List.mem_map.mp hvfst
      have hrow_cnt : row.2 = vals.count row.1 := hsnd row hrow
      have := hmax row hrow
      rw [hmc, ← hres_cnt]
      rw [← hrowv, ← hrow_cnt]
      exact this
    · intro v hv hve
      have hvfst : v ∈ (r :: rs).map Prod.fst := by
        rw [← htbl]
        exact (hmem v).mpr hv
      obtain ⟨row, hrow, hrowv⟩ := List.mem_map.mp hvfst
      have hrow_cnt : row.2 = vals.count row.1 := hsnd row hrow
      rw [hmc] at hve ⊢
      have hraw : row.2 = res.2 := by
        rw [hrow_cnt, hrowv, hve, hres_cnt]
      have := htie row hrow hraw
      rw [hrowv] at this
      exact this

/-- C9: with at least one aperture present, the summary's `most_common`
aperture is computed over present values only: it is a present value of
maximal frequency, and among tied-for-maximal values it is the smallest. -/
theorem most_common_aperture_spec (p : DataProcessor)
    (h : p.apertureVals ≠ []) :
    ∃ s, p.get_summary_report.aperture_stats = some s ∧
      s.most_common ∈ p.apertureVals ∧
      (∀ v ∈ p.apertureVals,
        p.apertureVals.count v ≤ p.apertureVals.count s.most_common) ∧
      (∀ v ∈ p.apertureVals,
        p.apertureVals.count v = p.apertureVals.count s.most_common →
          s.most_common ≤ v) := by
  obtain ⟨v, vs, hvv⟩ : ∃ v vs, p.apertureVals = v :: vs := by
    cases hav : p.apertureVals with
    | nil => exact absurd hav h
    | cons v vs => exact ⟨v, vs, rfl⟩
  refine ⟨⟨vs.foldl min v, vs.foldl max v, listMean (v :: vs),
    mostCommonOf p.apertureVals v⟩, ?_, ?_⟩
  · rw [DataProcessor.get_summary_report]
    simp only [hvv]
  · exact mostCommonOf_spec p.apertureVals v h


theorem most_common_aperture_spec_witness :
    procAperture.apertureVals ≠ [] ∧
    ∃ s, procAperture.get_summary_report.aperture_stats = some s ∧
      s.most_common ∈ procAperture.apertureVals ∧
      (∀ v ∈ procAperture.apertureVals,
        procAperture.apertureVals.count v ≤
          procAperture.apertureVals.count s.most_common) ∧
      (∀ v ∈ procAperture.apertureVals,
        procAperture.apertureVals.count v =
            procAperture.apertureVals.count s.most_common →
          s.most_common ≤ v) :=
  ⟨by decide, most_common_aperture_spec procAperture (by decide)⟩

/-- C10: in both upload paths of the shell, an empty scan result reports an
error message and returns without constructing the engine; whenever a
dashboard is produced, the engine it constructed holds exactly the scanned,
necessarily non-empty, record collection. -/
theorem shell_guards_engine (pd : List MetadataRecord) (sg : Bool) (tf : String) :
    (pd = [] →
      process_zip_upload pd sg tf =
        .errorMessage "No valid photos with EXIF data found in the ZIP file." ∧
      process_individual_uploads pd sg tf =
        .errorMessage "No valid photos with EXIF data found.") ∧
    (∀ d, process_zip_upload pd sg tf = .dashboard d →
      d.processor.records = pd ∧ pd ≠ []) ∧
    (∀ d, process_individual_uploads pd sg tf = .dashboard d →
      d.processor.records = pd ∧ pd ≠ []) := by
  by_cases hpd : pd = []
  · subst hpd
    refine ⟨fun _ => ⟨rfl, rfl⟩, ?_, ?_⟩ <;>
    · intro d hd
      simp [process_zip_upload, process_individual_uploads] at hd
  · refine ⟨fun h => absurd h hpd, ?_, ?_⟩
    · intro d hd
      rw [process_zip_upload,
        if_neg (by simpa [List.isEmpty_iff] using hpd)] at hd
      cases hd
      exact ⟨rfl, hpd⟩
    · intro d hd
      rw [process_individual_uploads,
        if_neg (by simpa [List.isEmpty_iff] using hpd)] at hd
      cases hd
      exact ⟨rfl, hpd⟩

theorem shell_guards_engine_witness :
    (process_zip_upload [] true "M" =
      .errorMessage "No valid photos with EXIF data found in the ZIP file.") ∧
    (process_individual_uploads [] true "M" =
      .errorMessage "No valid photos with EXIF data found.") ∧
    ((display_dashboard [blankRecord] true "M").processor.records =
      [blankRecord] ∧ [blankRecord] ≠ []) :=
  ⟨((shell_guards_engine [] true "M").1 rfl).1,
   ((shell_guards_engine [] true "M").1 rfl).2,
   (shell_guards_engine [blankRecord] true "M").2.1
     (display_dashboard [blankRecord] true "M") rfl⟩


end ExifDashboard
